import Mathlib

/-!
Verification of the gastitelegram Telegram expense bot.

The JavaScript sources are shallowly embedded as pure Lean functions:

* Outbound I/O (Telegram send/edit, the DeepSeek LLM, the Gasti/Supabase
  backend, the token file) is modelled by an `Env` oracle holding each
  call's outcome and by an explicit `Action` trace listing the calls a
  handler performs, in program order.
* JS numbers that the code treats as amounts are modelled as `Int`
  (JSON numbers; a JSON field that is absent or non-numeric is `none`
  of an `Option`).  Locale-dependent digit rendering
  (`toLocaleString`, `toFixed`, `toISOString`) is abstracted to
  `toString`; no claim depends on digit rendering.
* JS truthiness of the optional strings and numbers the code guards on
  (`!expense.amount`, `tokenData.newRefreshToken && ...`) is modelled
  by `numTruthy` / `strTruthy`.

The repository ships several near-duplicate variants of the listing and
summary handlers.  They are embedded in separate namespaces:
`Gastos` for the `/gastos` handler concatenated at the end of
`src/gastitelegram/resumen.js` (an identical copy of its
`formatApiResponse` sits in `src/unnamed/part_000`), `Part001` for the
variant in `src/unnamed/part_001`, `Resumen1` and `Resumen2` for the
first and second `/resumen` variants inside `src/gastitelegram/resumen.js`.
-/

namespace GastiBot

/-- JS truthiness of an optional string: `undefined`, `null` and `""`
are falsy (models guards such as `!tokenData.accessToken`). -/
def strTruthy : Option String → Bool
  | none => false
  | some s => s ≠ ""

/-- JS truthiness of an optional number: absent/`NaN` (modelled `none`)
and `0` are falsy (models guards such as `!expense.amount`). -/
def numTruthy : Option Int → Bool
  | none => false
  | some n => n ≠ 0

/-- Models `String.prototype.toUpperCase` (built on `String.mk` so that
concrete instances reduce in the kernel). -/
def jsToUpper (s : String) : String := String.mk (s.data.map Char.toUpper)

/-- Models `String.prototype.startsWith`. -/
def jsStartsWith (s pre : String) : Bool := List.isPrefixOf pre.data s.data

/-- A string made only of whitespace characters (used to state the
spec's "whitespace-only text" edge case). -/
def isBlankText (s : String) : Bool := s.data.all Char.isWhitespace

/-- The expense object produced by `parseExpenseWithAI` in
`src/index.js`: the four JSON fields the prompt requests, each possibly
absent or (for `amount`) non-numeric. -/
structure Expense where
  amount : Option Int
  description : Option String
  currency : Option String
  category : Option String
deriving Repr, DecidableEq

/-- Result of a successful `getNewAccessToken` call in `src/index.js`:
`{accessToken: data.access_token, newRefreshToken: data.refresh_token}`,
either field possibly absent in the backend reply. -/
structure TokenData where
  accessToken : Option String
  newRefreshToken : Option String
deriving Repr, DecidableEq

/-- State of the persistent token file `gasti_token.json`:
missing, present but unreadable/corrupt, or readable with a stored
refresh token. -/
inductive TokenFile
  | missing
  | unreadable
  | ok (token : String)
deriving Repr, DecidableEq

/-- `readRefreshToken` from `src/index.js`: returns the stored token;
on any failure (missing or unreadable file) falls back to the seed
`GASTI_INITIAL_REFRESH_TOKEN` from the environment. -/
def readRefreshToken (file : TokenFile) (seed : String) : String :=
  match file with
  | TokenFile.ok t => t
  | _ => seed

/-- `writeRefreshToken` from `src/index.js`: persists the new token;
an I/O failure is caught and logged (second component `true`) and the
function still returns normally, leaving the file unchanged. -/
def writeRefreshToken (file : TokenFile) (writeFails : Bool) (newToken : String) :
    TokenFile × Bool :=
  if writeFails then (file, true) else (TokenFile.ok newToken, false)

/-- The transaction payload built by `sendTransaction` in
`src/index.js`.  The `date` (wall-clock `new Date()`), `user_email` and
`user_id` fields are configuration/clock data not referenced by any
claim and are omitted. -/
structure TransactionPayload where
  description : Option String
  amount : Option Int
  category : Option String
  type : String
  currency : String
deriving Repr, DecidableEq

/-- Payload construction in `sendTransaction` (`src/index.js`):
`amount: -Math.abs(parseFloat(expenseData.amount))` (`none` models the
`NaN` produced from a missing amount), `type: "expense"`,
`currency: (expenseData.currency || 'USD').toUpperCase()`. -/
def mkTransactionPayload (e : Expense) : TransactionPayload :=
  { description := e.description
    amount := e.amount.map (fun a => -((a.natAbs : Int)))
    category := e.category
    type := "expense"
    currency := jsToUpper (if strTruthy e.currency then e.currency.getD "" else "USD") }

/-- One transaction as rendered by the listing formatters
(`formatApiResponse`); `date` is the timestamp `new Date(tx.date)`
compares by. -/
structure ListingTx where
  date : Int
  description : String
  amount : Int
  currency : String
  category : Option String
deriving Repr, DecidableEq

/-- One per-currency aggregate row of the listing response
(`summary` in `formatApiResponse`; `parseFloat(s.expenses)` modelled
as the number itself). -/
structure SummaryRow where
  currency : String
  expenses : Int
deriving Repr, DecidableEq

/-- The `/gastos` RPC response shape consumed by `formatApiResponse`.
A reply whose `transactions` field is absent takes the same guard
branch as an empty array and is modelled by the empty list. -/
structure ApiResponse where
  transactions : List ListingTx
  summary : List SummaryRow
deriving Repr, DecidableEq

/-- A transaction as returned raw by the `/resumen` RPC, before the
normalization in the second `getAllTransactions`.  `amount` is `none`
when the JSON field is absent or non-numeric. -/
structure RawTx where
  date : Int
  description : String
  amount : Option Int
  currency : String
  category : Option String
deriving Repr, DecidableEq

/-- A transaction after the normalization in the second
`getAllTransactions` of `src/gastitelegram/resumen.js`. -/
structure NormTx where
  date : Int
  description : String
  amount : Int
  currency : String
  category : Option String
  type : String
deriving Repr, DecidableEq

/-- One structural piece of a formatted listing message.  The literal
markdown text around each piece is fixed in the source and not
load-bearing for any claim, so the message is modelled as the ordered
list of its pieces. -/
inductive MsgPart
  | header
  | summaryLine (currency : String) (expenses : Int)
  | entriesHeader
  | entry (tx : ListingTx)
  | more (n : Nat)
  | noneFound
deriving Repr, DecidableEq

/-- The chronological trace of outbound calls a handler performs. -/
inductive Action
  | sendMessage (text : String)
  | editMessage (text : String)
  | replyListing (msg : List MsgPart)
  | llmParse (text : String)
  | llmNarrative (prompt : String)
  | refreshCall (refreshToken : String)
  | storeWrite (token : String)
  | rpcFetch
  | createTransaction (payload : TransactionPayload) (src : Expense)
deriving Repr, DecidableEq

/-- Outcomes of the external calls a single inbound message can make:
the LLM parse result (`none` models an HTTP error, invalid JSON, or the
model's own `{"error": ...}` reply), the token-refresh result (`none`
models `getNewAccessToken` returning `null`), whether the transaction
POST succeeds, whether the token-file write fails, the `/gastos` and
`/resumen` fetch results (`none` models a non-2xx reply, which throws),
and the narrative LLM completion text. -/
structure Env where
  parseResult : Option Expense
  refreshResult : Option TokenData
  sendOk : Bool
  writeFails : Bool
  fetchListing : Option ApiResponse
  fetchRaw : Option (List RawTx)
  narrativeReply : String
deriving Repr

/-- The token refresh-and-rotate block repeated verbatim in every
command handler (`src/index.js` message handler, `handleGastosCommand`,
both `handleResumenCommand` variants):

```
const tokenData = await getNewAccessToken(currentRefreshToken);
if (!tokenData || !tokenData.accessToken) { throw ... }
if (tokenData.newRefreshToken && tokenData.newRefreshToken !== currentRefreshToken) {
    await writeRefreshToken(tokenData.newRefreshToken);
}
```

Returns `none` (the thrown error) on refresh failure, otherwise the
token data and the possibly-updated token file, together with the
trace of calls made. -/
def refreshAndPersist (env : Env) (current : String) (file : TokenFile) :
    Option (TokenData × TokenFile) × List Action :=
  match env.refreshResult with
  | none => (none, [Action.refreshCall current])
  | some td =>
    if strTruthy td.accessToken then
      if strTruthy td.newRefreshToken && (td.newRefreshToken.getD "" != current) then
        (some (td, (writeRefreshToken file env.writeFails (td.newRefreshToken.getD "")).1),
         [Action.refreshCall current, Action.storeWrite (td.newRefreshToken.getD "")])
      else
        (some (td, file), [Action.refreshCall current])
    else
      (none, [Action.refreshCall current])

def startText : String :=
  "¡Hola! Soy tu asistente de gastos con IA. Descríbeme tus gastos de forma natural y yo los registraré.\n\nPor ejemplo: \x27Compré zapatillas nuevas por 50000 pesos\x27 o \x27Cena con amigos 45.50 usd\x27"

def thinkingText : String := "🤔 Analizando tu gasto..."

def analysisDoneText : String := "Análisis completado."

def retryText : String :=
  "😕 No pude entender los detalles de ese gasto. ¿Podrías intentarlo de nuevo con otro formato?"

def successText : String := "🎉 ¡Gasto registrado con éxito!"

def apologyText : String :=
  "🔥 ¡Ups! Hubo un error en mi sistema. Ya estoy avisado y lo revisaré. Por favor, intenta de nuevo más tarde."

def gastosSearchText : String := "Buscando tus gastos en Gasti.pro..."

def gastosErrorText : String :=
  "🔥 ¡Ups! Hubo un error y no pude obtener tus gastos. Revisa los logs del servidor."

def recopilandoText : String := "🔍 Recopilando datos... Un momento."

def procesandoText : String := "⚙️ Procesando y calculando totales..."

def generandoText : String := "🧠 Generando análisis y consejos con IA..."

def resumenErrorText : String :=
  "🔥 ¡Ups! Hubo un error al generar el resumen. Revisa los logs del servidor."

/-- The confirmation message of `src/index.js` (template literal with
the parsed fields; an absent field renders as `undefined` exactly as a
JS template literal would). -/
def confirmationMsg (e : Expense) : String :=
  "✅ ¡Entendido! Registrando en Gasti.pro:\n\n📝 **Descripción:** " ++
  e.description.getD "undefined" ++
  "\n💰 **Monto:** " ++
  (match e.amount with | some n => toString n | none => "undefined") ++ " " ++
  jsToUpper (if strTruthy e.currency then e.currency.getD "" else "USD") ++
  "\n🏷️ **Categoría:** " ++ e.category.getD "undefined"

/-- Validity guard of the message handler in `src/index.js`:
`!expense || !expense.amount || !expense.description` (negated). -/
def expenseUsable (r : Option Expense) : Bool :=
  match r with
  | none => false
  | some e => numTruthy e.amount && strTruthy e.description

/-- The expense branch of the `bot.on('message')` handler in
`src/index.js`: thinking message, LLM parse, edit, validity guard with
retry prompt, confirmation, token refresh block, transaction POST,
success message; any thrown error is caught by the surrounding
`try/catch`, which sends the generic apology. -/
def recorderFlow (env : Env) (seed : String) (file : TokenFile) (text : String) :
    List Action × TokenFile :=
  let pre := [Action.sendMessage thinkingText, Action.llmParse text,
              Action.editMessage analysisDoneText]
  match env.parseResult with
  | none => (pre ++ [Action.sendMessage retryText], file)
  | some e =>
    if numTruthy e.amount && strTruthy e.description then
      let confirm := Action.sendMessage (confirmationMsg e)
      let current := readRefreshToken file seed
      match refreshAndPersist env current file with
      | (none, acts) =>
        (pre ++ [confirm] ++ acts ++ [Action.sendMessage apologyText], file)
      | (some (_td, file2), acts) =>
        let submit := Action.createTransaction (mkTransactionPayload e) e
        if env.sendOk then
          (pre ++ [confirm] ++ acts ++ [submit, Action.sendMessage successText], file2)
        else
          (pre ++ [confirm] ++ acts ++ [submit, Action.sendMessage apologyText], file2)
    else
      (pre ++ [Action.sendMessage retryText], file)

namespace Gastos

/-- `formatApiResponse` as concatenated at the end of
`src/gastitelegram/resumen.js` (identical copy in
`src/unnamed/part_000`): empty-or-absent transaction list short-circuits
to the "No se encontraron gastos recientes." message; otherwise header,
per-currency summary lines, `transactions.slice(0, 10)` rendered in
backend order, and the "... y N más." suffix when more than 10. -/
def formatApiResponse (r : ApiResponse) : List MsgPart :=
  if r.transactions.length = 0 then [MsgPart.noneFound]
  else
    [MsgPart.header] ++
    (r.summary.map (fun s => MsgPart.summaryLine s.currency s.expenses)) ++
    [MsgPart.entriesHeader] ++
    ((r.transactions.take 10).map MsgPart.entry) ++
    (if 10 < r.transactions.length then [MsgPart.more (r.transactions.length - 10)] else [])

/-- `handleGastosCommand` (same file): search message, token refresh
block, summary RPC, formatted reply; on a thrown error it edits in the
error text and rethrows, after which the `src/index.js` dispatcher
catch sends the generic apology. -/
def gastosFlow (env : Env) (seed : String) (file : TokenFile) : List Action × TokenFile :=
  let pre := [Action.sendMessage gastosSearchText]
  let current := readRefreshToken file seed
  match refreshAndPersist env current file with
  | (none, acts) =>
    (pre ++ acts ++ [Action.editMessage gastosErrorText, Action.sendMessage apologyText], file)
  | (some (_td, file2), acts) =>
    match env.fetchListing with
    | none =>
      (pre ++ acts ++ [Action.rpcFetch, Action.editMessage gastosErrorText,
                       Action.sendMessage apologyText], file2)
    | some resp =>
      (pre ++ acts ++ [Action.rpcFetch, Action.replyListing (formatApiResponse resp)], file2)

end Gastos

/-- Descending-by-date comparator of `src/unnamed/part_001`:
`(a, b) => new Date(b.date) - new Date(a.date)` places `a` before `b`
when `b.date ≤ a.date` (JS `Array.prototype.sort` is stable). -/
def dateDesc (a b : ListingTx) : Bool := b.date ≤ a.date

namespace Part001

/-- `formatApiResponse` from `src/unnamed/part_001`: same as
`Gastos.formatApiResponse` except the transactions are first stably
sorted descending by date before the `slice(0, 10)`. -/
def formatApiResponse (r : ApiResponse) : List MsgPart :=
  if r.transactions.length = 0 then [MsgPart.noneFound]
  else
    [MsgPart.header] ++
    (r.summary.map (fun s => MsgPart.summaryLine s.currency s.expenses)) ++
    [MsgPart.entriesHeader] ++
    (((r.transactions.mergeSort dateDesc).take 10).map MsgPart.entry) ++
    (if 10 < r.transactions.length then [MsgPart.more (r.transactions.length - 10)] else [])

end Part001

/-- The rendered transaction entries of a formatted listing message,
in order. -/
def entriesOf (parts : List MsgPart) : List ListingTx :=
  parts.filterMap (fun p => match p with | MsgPart.entry tx => some tx | _ => none)

namespace Resumen1

def noTxText : String := "No hay transacciones para analizar. Registra algunos gastos primero."

/-- One line of the transaction block sent to the LLM by the first
`/resumen` variant (ISO-date and float rendering abstracted to
`toString`). -/
def formatTxLine (tx : RawTx) : String :=
  toString tx.date ++ ", " ++ tx.description ++ ", " ++
  toString ((tx.amount.getD 0).natAbs) ++ ", " ++ tx.currency ++ ", " ++
  tx.category.getD "Sin categoría"

/-- `analyzeExpensesWithAI` from the first `/resumen` variant in
`src/gastitelegram/resumen.js`: with zero transactions it returns the
fixed message and performs no LLM call; otherwise it sends the
formatted transaction list to the LLM and returns the completion. -/
def analyzeExpensesWithAI (llmReply : String) (txs : List RawTx) : String × List Action :=
  if txs.length = 0 then (noTxText, [])
  else
    let prompt := "Aquí están mis transacciones de gastos:\n\n" ++
      String.intercalate "\n" (txs.map formatTxLine) ++
      "\n\nPor favor, genera el resumen financiero detallado siguiendo las instrucciones que te di."
    (llmReply, [Action.llmNarrative prompt])

end Resumen1

namespace Resumen2

def noTxText : String := "No se encontraron transacciones para analizar."

/-- The per-transaction normalization in the second
`getAllTransactions` of `src/gastitelegram/resumen.js`:
`type: tx.amount < 0 ? 'expense' : 'income'` compares the raw amount
(a non-numeric raw amount compares as `NaN < 0`, i.e. `false`), and
`amount: parseFloat(tx.amount) || 0` coerces a non-numeric amount
to `0`. -/
def normalizeTx (tx : RawTx) : NormTx :=
  { date := tx.date
    description := tx.description
    type := if (match tx.amount with | some n => decide (n < 0) | none => false)
            then "expense" else "income"
    amount := tx.amount.getD 0
    currency := tx.currency
    category := tx.category }

/-- The pure part of the second `getAllTransactions`: the fetched
`data.transactions || []` mapped through the normalization. -/
def getAllTransactions (raws : List RawTx) : List NormTx :=
  raws.map normalizeTx

/-- JS object accumulation `categorias[categoria] = (categorias[categoria] || 0) + monto`
(keys keep first-insertion order, as `Object.entries` then observes). -/
def upsertCategoria (acc : List (String × Int)) (cat : String) (monto : Int) :
    List (String × Int) :=
  if acc.any (fun p => p.1 == cat) then
    acc.map (fun p => if p.1 == cat then (p.1, p.2 + monto) else p)
  else acc ++ [(cat, monto)]

/-- `getTopCategorias` inside `analizarTransacciones`: totals per
category, sorted descending by total (stable), first five. -/
def getTopCategorias (listaGastos : List NormTx) : List (String × Int) :=
  let categorias := listaGastos.foldl
    (fun acc g => upsertCategoria acc (g.category.getD "Sin Categoría") ((g.amount.natAbs : Int)))
    []
  (categorias.mergeSort (fun a b => b.2 ≤ a.2)).take 5

/-- `analizarTransacciones` from the second `/resumen` variant: with no
transactions, the fixed "No se encontraron..." message; otherwise the
deterministic numeric summary (expenses partitioned from incomes by the
`type` field, totals and net balance per currency, top-5 categories;
locale number rendering abstracted to `toString`). -/
def analizarTransacciones (ts : List NormTx) : String :=
  if ts.length = 0 then noTxText
  else
    let gastos := ts.filter (fun t => t.type == "expense")
    let ingresos := ts.filter (fun t => t.type == "income")
    let totalGastosUSD := ((gastos.filter (fun g => g.currency == "USD")).map
      (fun g => ((g.amount.natAbs : Int)))).sum
    let totalGastosARS := ((gastos.filter (fun g => g.currency == "ARS")).map
      (fun g => ((g.amount.natAbs : Int)))).sum
    let totalIngresosUSD := ((ingresos.filter (fun g => g.currency == "USD")).map
      (fun g => g.amount)).sum
    let totalIngresosARS := ((ingresos.filter (fun g => g.currency == "ARS")).map
      (fun g => g.amount)).sum
    let balanceNetoUSD := totalIngresosUSD - totalGastosUSD
    let balanceNetoARS := totalIngresosARS - totalGastosARS
    let base :=
      "=== RESUMEN FINANCIERO ===\n" ++
      "Total gastado en USD: " ++ toString totalGastosUSD ++ "\n" ++
      "Total ingresos en USD: " ++ toString totalIngresosUSD ++ "\n" ++
      "Balance neto en USD: " ++ toString balanceNetoUSD ++ "\n\n" ++
      "Total gastado en ARS: " ++ toString totalGastosARS ++ "\n" ++
      "Total ingresos en ARS: " ++ toString totalIngresosARS ++ "\n" ++
      "Balance neto en ARS: " ++ toString balanceNetoARS ++ "\n\n" ++
      "=== ESTADÍSTICAS ADICIONALES ===\n" ++
      "Número total de transacciones: " ++ toString ts.length ++ "\n" ++
      "Transacciones de gasto: " ++ toString gastos.length ++ "\n" ++
      "Transacciones de ingreso: " ++ toString ingresos.length ++ "\n\n"
    let topUSD := getTopCategorias (gastos.filter (fun g => g.currency == "USD"))
    let withUSD :=
      if topUSD.length > 0 then
        base ++ "=== TOP 5 CATEGORÍAS DE GASTO EN USD ===\n" ++
        String.intercalate "" (topUSD.map (fun p => p.1 ++ ": " ++ toString p.2 ++ "\n"))
      else base
    let topARS := getTopCategorias (gastos.filter (fun g => g.currency == "ARS"))
    if topARS.length > 0 then
      withUSD ++ "\n=== TOP 5 CATEGORÍAS DE GASTO EN ARS ===\n" ++
      String.intercalate "" (topARS.map (fun p => p.1 ++ ": " ++ toString p.2 ++ "\n"))
    else withUSD

/-- `analyzeDataWithAI` from the second `/resumen` variant: a summary
that is empty or starts with "No se encontraron" is returned as-is with
no LLM call; otherwise the summary is sent to the LLM. -/
def analyzeDataWithAI (llmReply : String) (dataSummary : String) : String × List Action :=
  if dataSummary = "" || jsStartsWith dataSummary "No se encontraron" then
    (dataSummary, [])
  else
    (llmReply, [Action.llmNarrative dataSummary])

/-- `handleResumenCommand` from the second `/resumen` variant:
collect message, token refresh block, period RPC, local aggregation,
LLM narration, final edit; a thrown error edits in the error text. -/
def resumenFlow (env : Env) (seed : String) (file : TokenFile) : List Action × TokenFile :=
  let pre := [Action.sendMessage recopilandoText]
  let current := readRefreshToken file seed
  match refreshAndPersist env current file with
  | (none, acts) => (pre ++ acts ++ [Action.editMessage resumenErrorText], file)
  | (some (_td, file2), acts) =>
    match env.fetchRaw with
    | none => (pre ++ acts ++ [Action.rpcFetch, Action.editMessage resumenErrorText], file2)
    | some raws =>
      let dataSummary := analizarTransacciones (getAllTransactions raws)
      let res := analyzeDataWithAI env.narrativeReply dataSummary
      (pre ++ acts ++
       [Action.rpcFetch, Action.editMessage procesandoText, Action.editMessage generandoText] ++
       res.2 ++ [Action.editMessage res.1], file2)

end Resumen2

/-- The `bot.on('message')` dispatcher of `src/index.js`: no text (or
empty text, both falsy) is ignored; `/start` prefix gets the static
help text; `/gastos` prefix runs the listing flow; anything else runs
the expense recorder. -/
def handleMessage (env : Env) (seed : String) (file : TokenFile) (text : Option String) :
    List Action × TokenFile :=
  match text with
  | none => ([], file)
  | some t =>
    if t = "" then ([], file)
    else if jsStartsWith t "/start" then ([Action.sendMessage startText], file)
    else if jsStartsWith t "/gastos" then Gastos.gastosFlow env seed file
    else recorderFlow env seed file t

/-- Recognizer for transaction-creation calls in a trace. -/
def isCreate : Action → Bool
  | Action.createTransaction _ _ => true
  | _ => false

/-- Number of transaction-creation calls in a trace. -/
def createCount (acts : List Action) : Nat := acts.countP isCreate

/-- Whether the refresh call of this run succeeded
(`tokenData && tokenData.accessToken` truthy). -/
def refreshOk (env : Env) : Bool :=
  match env.refreshResult with
  | none => false
  | some td => strTruthy td.accessToken

/-- Sample parsed expense: "Cena con amigos 45 usd" with no detected
currency field, used to instantiate universally quantified theorems. -/
def eA : Expense :=
  { amount := some 45, description := some "Cena con amigos", currency := none
    category := some "🍽️ Comida" }

/-- Environment of a fully successful recorder run. -/
def envOk : Env :=
  { parseResult := some eA
    refreshResult := some { accessToken := some "acc", newRefreshToken := some "r2" }
    sendOk := true, writeFails := false, fetchListing := none, fetchRaw := none
    narrativeReply := "" }

/-- Same run but the token-file write fails. -/
def envOkWriteFail : Env :=
  { parseResult := some eA
    refreshResult := some { accessToken := some "acc", newRefreshToken := some "r2" }
    sendOk := true, writeFails := true, fetchListing := none, fetchRaw := none
    narrativeReply := "" }

/-- A refresh reply whose rotated token is the empty string (falsy in
JS) while differing from the stored one. -/
def envEmptyRotation : Env :=
  { parseResult := none
    refreshResult := some { accessToken := some "acc", newRefreshToken := some "" }
    sendOk := true, writeFails := false, fetchListing := none, fetchRaw := none
    narrativeReply := "" }

/-- A run whose LLM parse step failed (`parseExpenseWithAI` returned
`null`). -/
def envNoParse : Env :=
  { parseResult := none, refreshResult := none, sendOk := false, writeFails := false
    fetchListing := none, fetchRaw := none, narrativeReply := "" }

/-- An older and a newer listing transaction (backend returns the
older one first). -/
def txOld : ListingTx :=
  { date := 1, description := "cafe", amount := -5, currency := "USD", category := none }

def txNew : ListingTx :=
  { date := 2, description := "cena", amount := -7, currency := "USD", category := none }

/-- Listing response with two transactions in ascending date order. -/
def respTwo : ApiResponse := { transactions := [txOld, txNew], summary := [] }

/-- Listing response with eleven transactions. -/
def respEleven : ApiResponse := { transactions := List.replicate 11 txOld, summary := [] }

/-- A raw narrative-fetch transaction with a negative numeric amount. -/
def rawNeg : RawTx :=
  { date := 0, description := "d", amount := some (-5), currency := "USD", category := none }

/-- A raw narrative-fetch transaction with a non-numeric amount. -/
def rawNone : RawTx :=
  { date := 0, description := "d", amount := none, currency := "USD", category := none }

/-- A parsed expense whose amount is the (falsy) number 0. -/
def eZero : Expense :=
  { amount := some 0, description := some "algo", currency := none, category := none }

/-- A run whose LLM parse produced the zero-amount expense. -/
def envZero : Env :=
  { parseResult := some eZero, refreshResult := none, sendOk := false, writeFails := false
    fetchListing := none, fetchRaw := none, narrativeReply := "" }

/-- The trace of the token refresh block never contains a
transaction-creation call. -/
theorem create_not_mem_refresh (env : Env) (current : String) (file : TokenFile)
    (p : TransactionPayload) (s : Expense) :
    Action.createTransaction p s ∉ (refreshAndPersist env current file).2 := by
  unfold refreshAndPersist
  cases env.refreshResult with
  | none => simp
  | some td =>
    by_cases h1 : strTruthy td.accessToken
    · by_cases h2 : strTruthy td.newRefreshToken && (td.newRefreshToken.getD "" != current)
      · simp [h1, h2]
      · simp [h1, h2]
    · simp [h1]

/-- The trace of the token refresh block contributes no
transaction-creation calls to the count. -/
theorem createCount_refresh (env : Env) (current : String) (file : TokenFile) :
    createCount (refreshAndPersist env current file).2 = 0 := by
  unfold refreshAndPersist createCount
  cases env.refreshResult with
  | none => simp [isCreate]
  | some td =>
    by_cases h1 : strTruthy td.accessToken
    · by_cases h2 : strTruthy td.newRefreshToken && (td.newRefreshToken.getD "" != current)
      · simp [h1, h2, isCreate]
      · simp [h1, h2, isCreate]
    · simp [h1, isCreate]

/-- When the refresh succeeded, the token refresh block returns the
token data and some updated file. -/
theorem refreshAndPersist_success {env : Env} (h : refreshOk env = true)
    (current : String) (file : TokenFile) :
    ∃ td file2 acts, refreshAndPersist env current file = (some (td, file2), acts) ∧
      env.refreshResult = some td := by
  unfold refreshOk at h
  cases henv : env.refreshResult with
  | none => rw [henv] at h; exact absurd h (by simp)
  | some td =>
    rw [henv] at h
    have h1 : strTruthy td.accessToken = true := h
    by_cases h2 : strTruthy td.newRefreshToken && (td.newRefreshToken.getD "" != current)
    · refine ⟨td, (writeRefreshToken file env.writeFails (td.newRefreshToken.getD "")).1,
        [Action.refreshCall current, Action.storeWrite (td.newRefreshToken.getD "")], ?_, rfl⟩
      unfold refreshAndPersist
      rw [henv]
      simp [h1, h2]
    · refine ⟨td, file, [Action.refreshCall current], ?_, rfl⟩
      unfold refreshAndPersist
      rw [henv]
      simp [h1, h2]

/-- When the token refresh block returns token data, the refresh call
itself succeeded. -/
theorem refreshOk_of_some {env : Env} {current : String} {file : TokenFile}
    {x : TokenData × TokenFile} {acts : List Action}
    (h : refreshAndPersist env current file = (some x, acts)) : refreshOk env = true := by
  unfold refreshAndPersist at h
  unfold refreshOk
  cases henv : env.refreshResult with
  | none => rw [henv] at h; simp at h
  | some td =>
    rw [henv] at h
    by_cases h1 : strTruthy td.accessToken
    · exact h1
    · simp [h1] at h

/-- Inversion: a transaction-creation call in a recorder trace pins
down the source expense (the parsed result), its payload, and that the
validity guard and the token refresh both succeeded. -/
theorem recorder_create_inversion (env : Env) (seed : String) (file : TokenFile) (t : String)
    (payload : TransactionPayload) (e : Expense)
    (hmem : Action.createTransaction payload e ∈ (recorderFlow env seed file t).1) :
    env.parseResult = some e ∧ payload = mkTransactionPayload e ∧
    numTruthy e.amount = true ∧ strTruthy e.description = true ∧ refreshOk env = true := by
  simp only [recorderFlow] at hmem
  split at hmem
  · simp at hmem
  · rename_i e0 hp
    split at hmem
    · rename_i hg
      simp only [Bool.and_eq_true] at hg
      split at hmem
      · rename_i acts hrp
        have hnotin := create_not_mem_refresh env (readRefreshToken file seed) file payload e
        rw [hrp] at hnotin
        simp at hmem
        exact absurd hmem hnotin
      · rename_i td file2 acts hrp
        have hnotin := create_not_mem_refresh env (readRefreshToken file seed) file payload e
        rw [hrp] at hnotin
        split at hmem
        · simp at hmem
          rcases hmem with hmem | hmem
          · exact absurd hmem hnotin
          · rcases hmem with ⟨hpl, hee⟩
            subst hee
            exact ⟨hp, hpl, hg.1, hg.2, refreshOk_of_some hrp⟩
        · simp at hmem
          rcases hmem with hmem | hmem
          · exact absurd hmem hnotin
          · rcases hmem with ⟨hpl, hee⟩
            subst hee
            exact ⟨hp, hpl, hg.1, hg.2, refreshOk_of_some hrp⟩
    · simp at hmem

/-- Claim C8: a Token Store read over a missing or unreadable file
returns the configured seed refresh token instead of an error, and a
failing write is reported (logged) but returns normally, the in-flight
recorder command still reaching its transaction POST with the
already-obtained access token. -/
theorem c8_token_store_failures :
    (∀ seed : String, readRefreshToken TokenFile.missing seed = seed ∧
        readRefreshToken TokenFile.unreadable seed = seed) ∧
    (∀ (file : TokenFile) (tok : String), writeRefreshToken file true tok = (file, true)) ∧
    (∀ (env : Env) (seed : String) (file : TokenFile) (t : String) (e : Expense),
      env.parseResult = some e → numTruthy e.amount = true → strTruthy e.description = true →
      refreshOk env = true → env.writeFails = true →
      Action.createTransaction (mkTransactionPayload e) e ∈ (recorderFlow env seed file t).1) := by
  refine ⟨fun seed => ⟨rfl, rfl⟩, fun file tok => rfl, ?_⟩
  intro env seed file t e hp ha hd hro _hwf
  obtain ⟨td, file2, acts, heq, -⟩ :=
    refreshAndPersist_success hro (readRefreshToken file seed) file
  simp only [recorderFlow, hp, ha, hd, Bool.and_self, if_true, heq]
  by_cases hs : env.sendOk <;> simp [hs]

/-- Witness for C8 at concrete inputs (failed write, run continues to
the transaction POST). -/
theorem c8_token_store_failures_witness :
    readRefreshToken TokenFile.missing "seed0" = "seed0" ∧
    writeRefreshToken (TokenFile.ok "old") true "new" = (TokenFile.ok "old", true) ∧
    Action.createTransaction (mkTransactionPayload eA) eA ∈
      (recorderFlow envOkWriteFail "seed0" (TokenFile.ok "r1") "Cena con amigos 45 usd").1 :=
  ⟨(c8_token_store_failures.1 "seed0").1,
   c8_token_store_failures.2.1 (TokenFile.ok "old") "new",
   c8_token_store_failures.2.2 envOkWriteFail "seed0" (TokenFile.ok "r1")
     "Cena con amigos 45 usd" eA rfl (by decide) (by decide) (by decide) rfl⟩

/-- Claim C3: every payload the recorder submits has amount equal to
the negation of the absolute value of the parsed amount (hence negative
for the nonzero amounts that pass the guard), type the literal
"expense", and the upper-cased parsed currency, defaulting to "USD"
when the parsed expense has no (truthy) currency. -/
theorem c3_payload_normalized :
    ∀ (env : Env) (seed : String) (file : TokenFile) (t : String)
      (payload : TransactionPayload) (e : Expense),
      Action.createTransaction payload e ∈ (recorderFlow env seed file t).1 →
      payload.type = "expense" ∧
      (∃ a : Int, e.amount = some a ∧ a ≠ 0 ∧
        payload.amount = some (-((a.natAbs : Int))) ∧ -((a.natAbs : Int)) < 0) ∧
      (strTruthy e.currency = false → payload.currency = "USD") ∧
      (∀ c : String, e.currency = some c → c ≠ "" → payload.currency = jsToUpper c) := by
  intro env seed file t payload e hmem
  obtain ⟨hp, hpl, ha, hd, hro⟩ := recorder_create_inversion env seed file t payload e hmem
  subst hpl
  cases hamt : e.amount with
  | none => rw [hamt] at ha; simp [numTruthy] at ha
  | some a =>
    rw [hamt] at ha
    have ha0 : a ≠ 0 := by simpa [numTruthy] using ha
    refine ⟨rfl, ⟨a, rfl, ha0, ?_, ?_⟩, ?_, ?_⟩
    · simp [mkTransactionPayload, hamt]
    · have hpos : 0 < a.natAbs := Int.natAbs_pos.mpr ha0
      omega
    · intro hcf
      have hval : jsToUpper "USD" = "USD" := by decide
      simp [mkTransactionPayload, hcf, hval]
    · intro c hc hcne
      simp [mkTransactionPayload, strTruthy, hc, hcne]

/-- Witness for C3 at a concrete successful run. -/
theorem c3_payload_normalized_witness :
    (mkTransactionPayload eA).type = "expense" ∧ (mkTransactionPayload eA).currency = "USD" := by
  have h := c3_payload_normalized envOk "seed0" TokenFile.missing "Cena con amigos 45 usd"
    (mkTransactionPayload eA) eA (by decide)
  exact ⟨h.1, h.2.2.1 (by decide)⟩

/-- A list of transactions whose `type` is everywhere "expense" or
"income" is fully covered by the expense/income filters. -/
theorem filter_partition_length (l : List NormTx)
    (h : ∀ t ∈ l, t.type = "expense" ∨ t.type = "income") :
    (l.filter (fun t => t.type == "expense")).length +
    (l.filter (fun t => t.type == "income")).length = l.length := by
  induction l with
  | nil => simp
  | cons t l ih =>
    have ht := h t (by simp)
    have hrest : ∀ x ∈ l, x.type = "expense" ∨ x.type = "income" :=
      fun x hx => h x (by simp [hx])
    have hih := ih hrest
    rcases ht with ht | ht
    · simp only [List.filter_cons, ht,
        show (("expense" : String) == "expense") = true from by decide,
        show (("expense" : String) == "income") = false from by decide]
      simp only [if_true, Bool.false_eq_true, if_false, List.length_cons]
      omega
    · simp only [List.filter_cons, ht,
        show (("income" : String) == "expense") = false from by decide,
        show (("income" : String) == "income") = true from by decide]
      simp only [if_true, Bool.false_eq_true, if_false, List.length_cons]
      omega

/-- Claim C9: each transaction produced by the narrative-mode fetch
normalization has a numeric amount (non-numeric raw amounts coerced to
0) and type "expense" exactly when the amount is strictly negative,
"income" otherwise, so the aggregator's income/expense partition covers
every fetched transaction. -/
theorem c9_normalization_invariant :
    (∀ (raws : List RawTx) (t : NormTx), t ∈ Resumen2.getAllTransactions raws →
        (t.type = "expense" ∨ t.type = "income") ∧ (t.type = "expense" ↔ t.amount < 0)) ∧
    (∀ tx : RawTx, tx.amount = none → (Resumen2.normalizeTx tx).amount = 0) ∧
    (∀ raws : List RawTx,
        ((Resumen2.getAllTransactions raws).filter (fun t => t.type == "expense")).length +
        ((Resumen2.getAllTransactions raws).filter (fun t => t.type == "income")).length =
        (Resumen2.getAllTransactions raws).length) := by
  have key : ∀ (raws : List RawTx) (t : NormTx), t ∈ Resumen2.getAllTransactions raws →
      (t.type = "expense" ∨ t.type = "income") ∧ (t.type = "expense" ↔ t.amount < 0) := by
    intro raws t ht
    rw [Resumen2.getAllTransactions] at ht
    obtain ⟨r, -, hr⟩ := List.mem_map.mp ht
    subst hr
    cases hra : r.amount with
    | none =>
      constructor
      · right; simp [Resumen2.normalizeTx, hra]
      · simp [Resumen2.normalizeTx, hra]
    | some n =>
      by_cases hn : n < 0
      · constructor
        · left; simp [Resumen2.normalizeTx, hra, hn]
        · simp [Resumen2.normalizeTx, hra, hn]
      · constructor
        · right; simp [Resumen2.normalizeTx, hra, hn]
        · simp [Resumen2.normalizeTx, hra, hn]
  refine ⟨key, ?_, ?_⟩
  · intro tx htx; simp [Resumen2.normalizeTx, htx]
  · intro raws
    exact filter_partition_length _ (fun t ht => (key raws t ht).1)

/-- Witness for C9 at concrete transactions. -/
theorem c9_normalization_invariant_witness :
    ((Resumen2.normalizeTx rawNeg).type = "expense" ∨
      (Resumen2.normalizeTx rawNeg).type = "income") ∧
    (Resumen2.normalizeTx rawNone).amount = 0 :=
  ⟨(c9_normalization_invariant.1 [rawNeg] (Resumen2.normalizeTx rawNeg) (by decide)).1,
   c9_normalization_invariant.2.1 rawNone rfl⟩

/-- Claim C7: the narrative-summary analyzers, given zero transactions,
return the fixed "nothing to analyze" message and perform no LLM call
(empty action trace), in both `/resumen` variants. -/
theorem c7_empty_short_circuit :
    (∀ reply : String, Resumen1.analyzeExpensesWithAI reply [] = (Resumen1.noTxText, [])) ∧
    Resumen2.analizarTransacciones [] = Resumen2.noTxText ∧
    (∀ reply : String,
      Resumen2.analyzeDataWithAI reply (Resumen2.analizarTransacciones []) =
        (Resumen2.noTxText, [])) := by
  refine ⟨fun reply => rfl, rfl, fun reply => ?_⟩
  have h : (Resumen2.analizarTransacciones [] = "" ||
      jsStartsWith (Resumen2.analizarTransacciones []) "No se encontraron") = true := by decide
  simp only [Resumen2.analyzeDataWithAI, h, if_true]
  rfl

/-- When the token refresh block fails, the refresh itself failed
(`null` result or falsy access token). -/
theorem refreshOk_false_of_none {env : Env} {current : String} {file : TokenFile}
    {acts : List Action}
    (h : refreshAndPersist env current file = (none, acts)) : refreshOk env = false := by
  unfold refreshAndPersist at h
  unfold refreshOk
  cases henv : env.refreshResult with
  | none => rfl
  | some td =>
    rw [henv] at h
    cases hx : strTruthy td.accessToken with
    | false => exact hx
    | true =>
      simp only [hx, if_true] at h
      split at h <;> simp at h

/-- The recorder submits exactly one transaction when the parse guard
and the refresh succeed, and zero otherwise. -/
theorem createCount_recorderFlow (env : Env) (seed : String) (file : TokenFile) (t : String) :
    createCount (recorderFlow env seed file t).1 =
      if expenseUsable env.parseResult && refreshOk env then 1 else 0 := by
  simp only [recorderFlow]
  split
  · rename_i hp
    simp [createCount, isCreate, expenseUsable, hp]
  · rename_i e0 hp
    split
    · rename_i hg
      split
      · rename_i acts hrp
        have h0 := createCount_refresh env (readRefreshToken file seed) file
        rw [hrp] at h0
        have hrf := refreshOk_false_of_none hrp
        simp [createCount, List.countP_append, isCreate, expenseUsable, hp, hrf] at h0 ⊢
        simpa [createCount] using h0
      · rename_i td file2 acts hrp
        have h0 := createCount_refresh env (readRefreshToken file seed) file
        rw [hrp] at h0
        have hrt := refreshOk_of_some hrp
        by_cases hs : env.sendOk <;>
          (simp [hs, createCount, List.countP_append, isCreate, expenseUsable, hp, hg, hrt] at h0 ⊢ <;>
           simpa [createCount] using h0)
    · rename_i hg
      have hguard : expenseUsable env.parseResult = false := by
        simp [expenseUsable, hp]
        exact Bool.not_eq_true _ ▸ (by simpa using hg)
      simp [createCount, isCreate, hguard]

/-- The listing flow never submits a transaction. -/
theorem createCount_gastosFlow (env : Env) (seed : String) (file : TokenFile) :
    createCount (Gastos.gastosFlow env seed file).1 = 0 := by
  simp only [Gastos.gastosFlow]
  split
  · rename_i acts hrp
    have h0 := createCount_refresh env (readRefreshToken file seed) file
    rw [hrp] at h0
    simp [createCount, List.countP_append, isCreate] at h0 ⊢
    simpa [createCount] using h0
  · rename_i td file2 acts hrp
    have h0 := createCount_refresh env (readRefreshToken file seed) file
    rw [hrp] at h0
    split
    · simp [createCount, List.countP_append, isCreate] at h0 ⊢
      simpa [createCount] using h0
    · simp [createCount, List.countP_append, isCreate] at h0 ⊢
      simpa [createCount] using h0

/-- Claim C2: one inbound message makes at most one
transaction-creation call; exactly one only when both the parse guard
and the token refresh succeeded; zero on every failure branch; and on
recorder-routed text the count is exactly one iff both succeeded. -/
theorem c2_single_or_zero :
    ∀ (env : Env) (seed : String) (file : TokenFile) (text : Option String),
      createCount (handleMessage env seed file text).1 ≤ 1 ∧
      (createCount (handleMessage env seed file text).1 = 1 →
        expenseUsable env.parseResult = true ∧ refreshOk env = true) ∧
      ((expenseUsable env.parseResult = false ∨ refreshOk env = false) →
        createCount (handleMessage env seed file text).1 = 0) ∧
      (∀ t : String, text = some t → t ≠ "" → jsStartsWith t "/start" = false →
        jsStartsWith t "/gastos" = false →
        createCount (handleMessage env seed file text).1 =
          if expenseUsable env.parseResult && refreshOk env then 1 else 0) := by
  intro env seed file text
  cases text with
  | none =>
    refine ⟨by simp [handleMessage, createCount], by simp [handleMessage, createCount],
      by intro h; simp [handleMessage, createCount], ?_⟩
    intro t h
    exact Option.noConfusion h
  | some t =>
    by_cases ht0 : t = ""
    · subst ht0
      refine ⟨by simp [handleMessage, createCount], by simp [handleMessage, createCount],
        by intro h; simp [handleMessage, createCount], ?_⟩
      intro t0 heq h0 h1 h2
      injection heq with ht
      exact absurd ht.symm h0
    · by_cases hst : jsStartsWith t "/start"
      · have hmsg : handleMessage env seed file (some t) = ([Action.sendMessage startText], file) := by
          simp [handleMessage, ht0, hst]
        refine ⟨?_, ?_, ?_, ?_⟩
        · rw [hmsg]; simp [createCount, isCreate]
        · rw [hmsg]; intro h; simp [createCount, isCreate] at h
        · intro h; rw [hmsg]; simp [createCount, isCreate]
        · intro t0 heq h0 h1 h2
          injection heq with ht
          subst ht
          rw [hst] at h1
          exact Bool.noConfusion h1
      · by_cases hga : jsStartsWith t "/gastos"
        · have hmsg : handleMessage env seed file (some t) = Gastos.gastosFlow env seed file := by
            simp [handleMessage, ht0, hst, hga]
          have h0c := createCount_gastosFlow env seed file
          refine ⟨?_, ?_, ?_, ?_⟩
          · rw [hmsg, h0c]; omega
          · rw [hmsg, h0c]; intro h; exact absurd h (by omega)
          · intro h; rw [hmsg, h0c]
          · intro t0 heq h0 h1 h2
            injection heq with ht
            subst ht
            rw [hga] at h2
            exact Bool.noConfusion h2
        · have hmsg : handleMessage env seed file (some t) = recorderFlow env seed file t := by
            simp [handleMessage, ht0, hst, hga]
          have hrc := createCount_recorderFlow env seed file t
          refine ⟨?_, ?_, ?_, ?_⟩
          · rw [hmsg, hrc]; split <;> omega
          · rw [hmsg, hrc]
            intro h
            by_cases hu : expenseUsable env.parseResult && refreshOk env
            · simpa [Bool.and_eq_true] using hu
            · rw [if_neg hu] at h; exact absurd h (by omega)
          · intro h
            rw [hmsg, hrc]
            have hfalse : (expenseUsable env.parseResult && refreshOk env) = false := by
              rcases h with h | h <;> simp [h]
            simp [hfalse]
          · intro t0 heq h0 h1 h2
            injection heq with ht
            subst ht
            rw [hmsg, hrc]

/-- Witness for C2: a failed parse yields zero submissions. -/
theorem c2_single_or_zero_witness :
    createCount (handleMessage envNoParse "seed0" TokenFile.missing (some "hola")).1 = 0 :=
  (c2_single_or_zero envNoParse "seed0" TokenFile.missing (some "hola")).2.2.1 (Or.inl rfl)

/-- Claim C10: an expense whose amount is 0 or whose amount/description
is absent or empty is treated like a failed parse (retry prompt, no
submission), and every submitted transaction's source expense has a
nonzero amount and non-empty description. -/
theorem c10_invalid_expense_rejected :
    ∀ (env : Env) (seed : String) (file : TokenFile) (t : String),
      (∀ e : Expense, env.parseResult = some e →
        (e.amount = some 0 ∨ e.amount = none ∨
         e.description = none ∨ e.description = some "") →
        Action.sendMessage retryText ∈ (recorderFlow env seed file t).1 ∧
        createCount (recorderFlow env seed file t).1 = 0) ∧
      (∀ (payload : TransactionPayload) (e : Expense),
        Action.createTransaction payload e ∈ (recorderFlow env seed file t).1 →
        (∃ n : Int, e.amount = some n ∧ n ≠ 0) ∧
        (∃ d : String, e.description = some d ∧ d ≠ "")) := by
  intro env seed file t
  constructor
  · intro e hp hbad
    have hguard : (numTruthy e.amount && strTruthy e.description) = false := by
      rcases hbad with h | h | h | h <;> simp [numTruthy, strTruthy, h]
    constructor
    · simp [recorderFlow, hp, hguard]
    · simp [recorderFlow, hp, hguard, createCount, isCreate]
  · intro payload e hmem
    obtain ⟨hp, hpl, ha, hd, hro⟩ := recorder_create_inversion env seed file t payload e hmem
    constructor
    · cases hamt : e.amount with
      | none => rw [hamt] at ha; simp [numTruthy] at ha
      | some n => rw [hamt] at ha; exact ⟨n, rfl, by simpa [numTruthy] using ha⟩
    · cases hdes : e.description with
      | none => rw [hdes] at hd; simp [strTruthy] at hd
      | some d => rw [hdes] at hd; exact ⟨d, rfl, by simpa [strTruthy] using hd⟩

/-- Witness for C10: the zero-amount expense gets the retry prompt and
no submission. -/
theorem c10_invalid_expense_rejected_witness :
    Action.sendMessage retryText ∈ (recorderFlow envZero "seed0" TokenFile.missing "gasto 0").1 ∧
    createCount (recorderFlow envZero "seed0" TokenFile.missing "gasto 0").1 = 0 :=
  (c10_invalid_expense_rejected envZero "seed0" TokenFile.missing "gasto 0").1
    eZero rfl (Or.inl rfl)

/-- Counterexample to claim C1 as stated: a successful refresh whose
returned refresh token is the empty string (falsy in JS) differs from
the stored token "abc", yet the guard
`newRefreshToken && newRefreshToken !== current` skips the write and
the Token Store is left unchanged. -/
theorem c1_counterexample :
    readRefreshToken (TokenFile.ok "abc") "seed0" = "abc" ∧
    ("" : String) ≠ "abc" ∧
    refreshAndPersist envEmptyRotation "abc" (TokenFile.ok "abc") =
      (some ({ accessToken := some "acc", newRefreshToken := some "" }, TokenFile.ok "abc"),
       [Action.refreshCall "abc"]) :=
  ⟨rfl, by decide, by decide⟩

/-- Claim C1 (amended): after a successful refresh, the Token Store is
written with the returned refresh token iff that token is truthy
(non-empty) and differs from the one read before the refresh; when
written, a subsequent read returns the new token; otherwise no write
occurs and the store is unchanged.  `refreshAndPersist` is the token
block every command flow (recorder, listing, narrative summary)
executes. -/
theorem c1_rotation_write_iff :
    ∀ (env : Env) (seed : String) (file : TokenFile) (td : TokenData),
      env.refreshResult = some td → strTruthy td.accessToken = true → env.writeFails = false →
      ((strTruthy td.newRefreshToken = true ∧
          td.newRefreshToken.getD "" ≠ readRefreshToken file seed) →
        (refreshAndPersist env (readRefreshToken file seed) file).1 =
          some (td, TokenFile.ok (td.newRefreshToken.getD "")) ∧
        Action.storeWrite (td.newRefreshToken.getD "") ∈
          (refreshAndPersist env (readRefreshToken file seed) file).2 ∧
        readRefreshToken (TokenFile.ok (td.newRefreshToken.getD "")) seed =
          td.newRefreshToken.getD "") ∧
      ((strTruthy td.newRefreshToken = false ∨
          td.newRefreshToken.getD "" = readRefreshToken file seed) →
        (refreshAndPersist env (readRefreshToken file seed) file).1 = some (td, file) ∧
        (refreshAndPersist env (readRefreshToken file seed) file).2 =
          [Action.refreshCall (readRefreshToken file seed)]) := by
  intro env seed file td henv hacc hwf
  constructor
  · rintro ⟨h1, h2⟩
    have hcond : (strTruthy td.newRefreshToken &&
        (td.newRefreshToken.getD "" != readRefreshToken file seed)) = true := by
      simp [h1, bne_iff_ne, h2]
    simp only [refreshAndPersist, henv]
    rw [if_pos hacc, if_pos hcond, hwf]
    exact ⟨rfl, by simp, rfl⟩
  · intro h2
    have hcond : (strTruthy td.newRefreshToken &&
        (td.newRefreshToken.getD "" != readRefreshToken file seed)) = false := by
      rcases h2 with h | h <;> simp [h, bne_iff_ne]
    simp only [refreshAndPersist, henv]
    rw [if_pos hacc, if_neg (by simp [hcond])]
    exact ⟨rfl, rfl⟩

/-- Witness for the amended C1: a rotation to "r2" over a stored "r1"
is persisted and read back. -/
theorem c1_rotation_write_iff_witness :
    (refreshAndPersist envOk (readRefreshToken (TokenFile.ok "r1") "seed0")
        (TokenFile.ok "r1")).1 =
      some ({ accessToken := some "acc", newRefreshToken := some "r2" }, TokenFile.ok "r2") ∧
    readRefreshToken (TokenFile.ok "r2") "seed0" = "r2" := by
  have h := (c1_rotation_write_iff envOk "seed0" (TokenFile.ok "r1")
      { accessToken := some "acc", newRefreshToken := some "r2" } rfl (by decide) rfl).1
      ⟨by decide, by decide⟩
  exact ⟨h.1, h.2.2⟩

/-- A whitespace-only non-empty string does not start with a prefix
whose first character is not whitespace. -/
theorem jsStartsWith_false_of_blank (s : String) (h1 : s ≠ "") (h2 : isBlankText s = true)
    (pre : String) (c : Char) (l : List Char) (hpre : pre.data = c :: l)
    (hc : c.isWhitespace = false) : jsStartsWith s pre = false := by
  cases hs : s.data with
  | nil =>
    apply absurd _ h1
    cases s with
    | mk d =>
      simp only [String.data] at hs
      subst hs
      rfl
  | cons c0 cs =>
    have hc0 : c0.isWhitespace = true := by
      have h2b := h2
      simp [isBlankText, hs] at h2b
      exact h2b.1
    have hne : (c == c0) = false := by
      refine beq_eq_false_iff_ne.mpr ?_
      intro heq
      rw [heq, hc0] at hc
      cases hc
    simp [jsStartsWith, hpre, hs, List.isPrefixOf, hne]

/-- Every branch of the recorder sends the thinking message and calls
the parse LLM. -/
theorem recorder_pre_mem (env : Env) (seed : String) (file : TokenFile) (t : String) :
    Action.sendMessage thinkingText ∈ (recorderFlow env seed file t).1 ∧
    Action.llmParse t ∈ (recorderFlow env seed file t).1 := by
  simp only [recorderFlow]
  split
  · simp
  · split
    · split
      · simp
      · split <;> simp
    · simp

/-- Counterexample to claim C6 as stated: the whitespace-only text
`" "` is not ignored; the dispatcher replies with the thinking message
and invokes the parse LLM. -/
theorem c6_counterexample :
    isBlankText " " = true ∧ (" " : String) ≠ "" ∧
    (handleMessage envNoParse "seed0" TokenFile.missing (some " ")).1 =
      [Action.sendMessage thinkingText, Action.llmParse " ",
       Action.editMessage analysisDoneText, Action.sendMessage retryText] :=
  ⟨by decide, by decide, by decide⟩

/-- Claim C6 (amended): a message with no text or empty text is
ignored (no reply, no downstream call), but whitespace-only non-empty
text is not ignored: it is dispatched to the Expense Recorder, which
replies and calls the LLM. -/
theorem c6_empty_only_ignored :
    ∀ (env : Env) (seed : String) (file : TokenFile),
      handleMessage env seed file none = ([], file) ∧
      handleMessage env seed file (some "") = ([], file) ∧
      (∀ s : String, s ≠ "" → isBlankText s = true →
        Action.sendMessage thinkingText ∈ (handleMessage env seed file (some s)).1 ∧
        Action.llmParse s ∈ (handleMessage env seed file (some s)).1) := by
  intro env seed file
  refine ⟨rfl, rfl, ?_⟩
  intro s h1 h2
  have hns : jsStartsWith s "/start" = false :=
    jsStartsWith_false_of_blank s h1 h2 "/start" '/' "start".data rfl (by decide)
  have hng : jsStartsWith s "/gastos" = false :=
    jsStartsWith_false_of_blank s h1 h2 "/gastos" '/' "gastos".data rfl (by decide)
  have heq : handleMessage env seed file (some s) = recorderFlow env seed file s := by
    simp [handleMessage, h1, hns, hng]
  rw [heq]
  exact recorder_pre_mem env seed file s

/-- Witness for the amended C6: the blank text `" "` reaches the LLM. -/
theorem c6_empty_only_ignored_witness :
    Action.llmParse " " ∈ (handleMessage envNoParse "seed0" TokenFile.missing (some " ")).1 :=
  ((c6_empty_only_ignored envNoParse "seed0" TokenFile.missing).2.2 " "
    (by decide) (by decide)).2

/-- `entriesOf` distributes over append. -/
theorem entriesOf_append (a b : List MsgPart) :
    entriesOf (a ++ b) = entriesOf a ++ entriesOf b := by
  simp [entriesOf, List.filterMap_append]

/-- The rendered entries of a block of entry parts are its
transactions. -/
theorem entriesOf_entry_map (l : List ListingTx) : entriesOf (l.map MsgPart.entry) = l := by
  induction l with
  | nil => rfl
  | cons t l ih => simpa [entriesOf, List.filterMap_cons] using ih

/-- Summary lines render no transaction entries. -/
theorem entriesOf_summary_map (l : List SummaryRow) :
    entriesOf (l.map (fun s => MsgPart.summaryLine s.currency s.expenses)) = [] := by
  induction l with
  | nil => rfl
  | cons s l ih => simpa [entriesOf, List.filterMap_cons] using ih

/-- The optional trailing "more" suffix renders no transaction
entries. -/
theorem entriesOf_more_if (c : Prop) [Decidable c] (n : Nat) :
    entriesOf (if c then [MsgPart.more n] else []) = [] := by
  split <;> rfl

/-- The message header renders no transaction entries. -/
theorem entriesOf_header : entriesOf [MsgPart.header] = [] := rfl

/-- The entries-section header renders no transaction entries. -/
theorem entriesOf_entriesHeader : entriesOf [MsgPart.entriesHeader] = [] := rfl

/-- Counterexample to claim C4 as stated: the `formatApiResponse` of
`src/gastitelegram/resumen.js` (and `src/unnamed/part_000`) renders the
first ten transactions in backend order, so with the backend returning
the older transaction first the rendered entries are not in descending
date order. -/
theorem c4_counterexample :
    entriesOf (Gastos.formatApiResponse respTwo) = [txOld, txNew] ∧
    txOld.date < txNew.date ∧
    ¬ (entriesOf (Gastos.formatApiResponse respTwo)).Pairwise
        (fun a b => dateDesc a b = true) := by
  refine ⟨by decide, by decide, ?_⟩
  intro hpw
  rw [(by decide : entriesOf (Gastos.formatApiResponse respTwo) = [txOld, txNew])] at hpw
  have hrel := (List.pairwise_cons.mp hpw).1 txNew (by simp)
  simp [dateDesc, txOld, txNew] at hrel

/-- Claim C4 (amended): both listing formatters render at most ten
entries.  The `src/unnamed/part_001` variant renders the first ten of
the stable descending-by-date sort (the ten most recent, regardless of
backend order); the `src/gastitelegram/resumen.js` / `part_000` variant
renders the first ten in backend order. -/
theorem c4_listing_window :
    ∀ r : ApiResponse,
      entriesOf (Gastos.formatApiResponse r) = r.transactions.take 10 ∧
      (entriesOf (Gastos.formatApiResponse r)).length ≤ 10 ∧
      entriesOf (Part001.formatApiResponse r) = (r.transactions.mergeSort dateDesc).take 10 ∧
      (entriesOf (Part001.formatApiResponse r)).length ≤ 10 ∧
      (entriesOf (Part001.formatApiResponse r)).Pairwise (fun a b => dateDesc a b = true) := by
  intro r
  have hg : entriesOf (Gastos.formatApiResponse r) = r.transactions.take 10 := by
    unfold Gastos.formatApiResponse
    split
    · rename_i h0
      rw [List.length_eq_zero.mp h0]
      rfl
    · simp only [entriesOf_append, entriesOf_header, entriesOf_entriesHeader,
        entriesOf_entry_map, entriesOf_summary_map, entriesOf_more_if,
        List.append_nil, List.nil_append]
  have hp : entriesOf (Part001.formatApiResponse r) =
      (r.transactions.mergeSort dateDesc).take 10 := by
    unfold Part001.formatApiResponse
    split
    · rename_i h0
      rw [List.length_eq_zero.mp h0, List.mergeSort_nil]
      rfl
    · simp only [entriesOf_append, entriesOf_header, entriesOf_entriesHeader,
        entriesOf_entry_map, entriesOf_summary_map, entriesOf_more_if,
        List.append_nil, List.nil_append]
  refine ⟨hg, ?_, hp, ?_, ?_⟩
  · rw [hg]; exact List.length_take_le 10 _
  · rw [hp]; exact List.length_take_le 10 _
  · rw [hp]
    refine List.Pairwise.sublist (List.take_sublist 10 _) ?_
    apply List.sorted_mergeSort
    · intro a b c hab hbc
      simp [dateDesc] at *
      omega
    · intro a b
      simp [dateDesc]
      omega

/-- A suffix-free listing message (header, summary lines, entries
header, entry block, empty tail) contains no "more" part. -/
theorem more_not_mem_nosuffix (n : Nat) (summary : List SummaryRow) (entries : List ListingTx) :
    MsgPart.more n ∉
      [MsgPart.header] ++ (summary.map fun s => MsgPart.summaryLine s.currency s.expenses) ++
      [MsgPart.entriesHeader] ++ (entries.map MsgPart.entry) ++ ([] : List MsgPart) := by
  simp

/-- Claim C5: both listing formatters emit the trailing "... y N más."
suffix, with N the list length minus ten, exactly when strictly more
than ten transactions were fetched; shorter lists (including exactly
ten) contain no such suffix anywhere. -/
theorem c5_more_suffix :
    ∀ r : ApiResponse,
      (10 < r.transactions.length →
        (Gastos.formatApiResponse r).getLast? =
          some (MsgPart.more (r.transactions.length - 10)) ∧
        (Part001.formatApiResponse r).getLast? =
          some (MsgPart.more (r.transactions.length - 10))) ∧
      (r.transactions.length ≤ 10 →
        (∀ n : Nat, MsgPart.more n ∉ Gastos.formatApiResponse r) ∧
        (∀ n : Nat, MsgPart.more n ∉ Part001.formatApiResponse r)) := by
  intro r
  constructor
  · intro hlen
    have hne : ¬ (r.transactions.length = 0) := by omega
    constructor
    · unfold Gastos.formatApiResponse
      rw [if_neg hne, if_pos hlen]
      repeat rw [List.getLast?_append_of_ne_nil _ (by simp)]
      rfl
    · unfold Part001.formatApiResponse
      rw [if_neg hne, if_pos hlen]
      repeat rw [List.getLast?_append_of_ne_nil _ (by simp)]
      rfl
  · intro hlen
    by_cases h0 : r.transactions.length = 0
    · constructor <;> intro n
      · unfold Gastos.formatApiResponse
        rw [if_pos h0]
        simp
      · unfold Part001.formatApiResponse
        rw [if_pos h0]
        simp
    · have hnot : ¬ (10 < r.transactions.length) := by omega
      constructor <;> intro n
      · unfold Gastos.formatApiResponse
        rw [if_neg h0, if_neg hnot]
        exact more_not_mem_nosuffix n r.summary (r.transactions.take 10)
      · unfold Part001.formatApiResponse
        rw [if_neg h0, if_neg hnot]
        exact more_not_mem_nosuffix n r.summary ((r.transactions.mergeSort dateDesc).take 10)

/-- Witness for C5: eleven transactions end with "and 1 more"; two
transactions have no suffix. -/
theorem c5_more_suffix_witness :
    (Gastos.formatApiResponse respEleven).getLast? = some (MsgPart.more 1) ∧
    MsgPart.more 0 ∉ Gastos.formatApiResponse respTwo := by
  constructor
  · have h := ((c5_more_suffix respEleven).1 (by decide)).1
    simpa [respEleven] using h
  · exact ((c5_more_suffix respTwo).2 (by decide)).1 0

end GastiBot
